import Mathlib

/-!
Shallow embedding of the inventory reservation service
(modules items/reservations/maintenance) over an explicit database state.

Time is modelled as milliseconds since the epoch (`Nat`); a JavaScript
`new Date()` read becomes a `now : Nat` parameter, and all `Date` reads
inside one operation run to completion are the same instant.
`setMinutes (getMinutes () + m)` advances the epoch value by `m * 60000` ms.
Supabase query chains become `List.filter` over the table lists; a
`.single()` call succeeds exactly when the filtered list has one row and
otherwise reports the PGRST116 error, which the services translate as in
the source.  A thrown `AppError` becomes `Except.error`; a mutation that
throws leaves the database unchanged, so mutating operations return
`Except AppError (Reservation × DB)` where the `DB` is the post state.
-/

/-- Reservation status enum (`reservation_status` in the schema,
`ReservationStatus` in reservations/types). -/
inductive ReservationStatus where
  | PENDING
  | CONFIRMED
  | CANCELLED
  | EXPIRED
deriving DecidableEq, Repr

/-- A row of the `reservations` table.  Identifiers and timestamps are
modelled as `Nat`; the optional timestamps are `Option Nat`. -/
structure Reservation where
  id : Nat
  item_id : Nat
  customer_id : String
  quantity : Nat
  status : ReservationStatus
  created_at : Nat
  expires_at : Nat
  confirmed_at : Option Nat
  cancelled_at : Option Nat
deriving DecidableEq, Repr

/-- A row of the `items` table. -/
structure Item where
  id : Nat
  name : String
  total_quantity : Nat
  created_at : Nat
  updated_at : Nat
deriving DecidableEq, Repr

/-- The relational store: the two tables. -/
structure DB where
  items : List Item
  reservations : List Reservation
deriving DecidableEq, Repr

/-- The `ErrorCode` enum from types/api. -/
inductive ErrorCode where
  | INTERNAL_SERVER_ERROR
  | NOT_FOUND
  | VALIDATION_ERROR
  | TOO_MANY_REQUESTS
  | DATABASE_ERROR
  | ITEM_NOT_FOUND
  | RESERVATION_NOT_FOUND
  | INSUFFICIENT_QUANTITY
  | RESERVATION_EXPIRED
  | RESERVATION_CANCELLED
  | RESERVATION_CONFIRMED
deriving DecidableEq, Repr

/-- The `AppError` exception class: HTTP status, message, error code. -/
structure AppError where
  statusCode : Nat
  message : String
  code : ErrorCode
deriving DecidableEq, Repr

/-- Validated input of `createReservation` (CreateReservationInput). -/
structure CreateReservationInput where
  item_id : Nat
  customer_id : String
  quantity : Nat
deriving DecidableEq, Repr

/-- The per-item status report returned by `getItemStatus`.
`available_quantity` is an `Int` because the subtraction can go negative. -/
structure ItemStatus where
  id : Nat
  name : String
  total_quantity : Nat
  available_quantity : Int
  reserved_quantity : Nat
  confirmed_quantity : Nat
  created_at : Nat
  updated_at : Nat
deriving DecidableEq, Repr

/-- Result of the expiry sweep (`ExpireReservationsResult`). -/
structure ExpireReservationsResult where
  expired_count : Nat
  expired_reservation_ids : List Nat
deriving DecidableEq, Repr

/-- Reservation expiry time in minutes (reservations.service:
`const RESERVATION_EXPIRY_MINUTES = 1`). -/
def RESERVATION_EXPIRY_MINUTES : Nat := 1

/-- `itemExists` (items.service): select the item row with `.single()`;
the PGRST116 error (zero or several rows) yields `false`. -/
def itemExists (db : DB) (itemId : Nat) : Bool :=
  match db.items.filter (fun i => i.id = itemId) with
  | [_] => true
  | _ => false

/-- `getAvailableQuantity` (reservations.service): fetch the item's
`total_quantity`, sum the quantities of PENDING reservations whose
`expires_at` is strictly greater than now and of CONFIRMED reservations,
and subtract both from the total.  A failed item fetch surfaces as
`DATABASE_ERROR` (this helper is only called once `itemExists` passed). -/
def getAvailableQuantity (db : DB) (itemId : Nat) (now : Nat) : Except AppError Int :=
  match db.items.filter (fun i => i.id = itemId) with
  | [item] =>
    let pendingReservations := db.reservations.filter
      (fun r => r.item_id = itemId ∧ r.status = ReservationStatus.PENDING ∧ now < r.expires_at)
    let confirmedReservations := db.reservations.filter
      (fun r => r.item_id = itemId ∧ r.status = ReservationStatus.CONFIRMED)
    let pendingQty := pendingReservations.foldl (fun (sum : Nat) r => sum + r.quantity) 0
    let confirmedQty := confirmedReservations.foldl (fun (sum : Nat) r => sum + r.quantity) 0
    Except.ok ((item.total_quantity : Int) - (pendingQty : Int) - (confirmedQty : Int))
  | _ => Except.error ⟨500, "Failed to fetch item", ErrorCode.DATABASE_ERROR⟩

/-- `getItemStatus` (items.service): fetch the item (404 `ITEM_NOT_FOUND`
when `.single()` misses), sum ALL PENDING reservations regardless of
expiry as `reserved_quantity`, CONFIRMED ones as `confirmed_quantity`,
and report `available = total - reserved - confirmed`. -/
def getItemStatus (db : DB) (itemId : Nat) : Except AppError ItemStatus :=
  match db.items.filter (fun i => i.id = itemId) with
  | [item] =>
    let pendingReservations := db.reservations.filter
      (fun r => r.item_id = itemId ∧ r.status = ReservationStatus.PENDING)
    let confirmedReservations := db.reservations.filter
      (fun r => r.item_id = itemId ∧ r.status = ReservationStatus.CONFIRMED)
    let reservedQuantity := pendingReservations.foldl (fun (sum : Nat) r => sum + r.quantity) 0
    let confirmedQuantity := confirmedReservations.foldl (fun (sum : Nat) r => sum + r.quantity) 0
    let availableQuantity : Int :=
      (item.total_quantity : Int) - (reservedQuantity : Int) - (confirmedQuantity : Int)
    Except.ok
      { id := item.id
        name := item.name
        total_quantity := item.total_quantity
        available_quantity := availableQuantity
        reserved_quantity := reservedQuantity
        confirmed_quantity := confirmedQuantity
        created_at := item.created_at
        updated_at := item.updated_at }
  | _ => Except.error ⟨404, "Item not found", ErrorCode.ITEM_NOT_FOUND⟩

/-- `getReservation` (reservations.service): `.single()` select by id;
PGRST116 becomes 404 `RESERVATION_NOT_FOUND`. -/
def getReservation (db : DB) (reservationId : Nat) : Except AppError Reservation :=
  match db.reservations.filter (fun r => r.id = reservationId) with
  | [r] => Except.ok r
  | _ => Except.error ⟨404, "Reservation not found", ErrorCode.RESERVATION_NOT_FOUND⟩

/-- `createReservation` (reservations.service): check the item exists,
check availability, insert a PENDING row expiring
`RESERVATION_EXPIRY_MINUTES` after now.  `newId` stands for the
store-generated identifier of the inserted row. -/
def createReservation (db : DB) (input : CreateReservationInput) (now newId : Nat) :
    Except AppError (Reservation × DB) :=
  if itemExists db input.item_id = false then
    Except.error ⟨404, "Item not found", ErrorCode.ITEM_NOT_FOUND⟩
  else
    match getAvailableQuantity db input.item_id now with
    | Except.error e => Except.error e
    | Except.ok availableQty =>
      if availableQty < (input.quantity : Int) then
        Except.error ⟨409,
          "Insufficient available quantity. Available: " ++ toString availableQty
            ++ ", Requested: " ++ toString input.quantity,
          ErrorCode.INSUFFICIENT_QUANTITY⟩
      else
        let expiresAt := now + RESERVATION_EXPIRY_MINUTES * 60000
        let r : Reservation :=
          { id := newId
            item_id := input.item_id
            customer_id := input.customer_id
            quantity := input.quantity
            status := ReservationStatus.PENDING
            created_at := now
            expires_at := expiresAt
            confirmed_at := none
            cancelled_at := none }
        Except.ok (r, { db with reservations := db.reservations ++ [r] })

/-- The store statement `UPDATE reservations SET status = CONFIRMED,
confirmed_at = now WHERE id = rid AND status = PENDING`. -/
def confirmUpdate (rs : List Reservation) (rid now : Nat) : List Reservation :=
  rs.map (fun y => if y.id = rid ∧ y.status = ReservationStatus.PENDING
    then { y with status := ReservationStatus.CONFIRMED, confirmed_at := some now }
    else y)

/-- The store statement `UPDATE reservations SET status = CANCELLED,
cancelled_at = now WHERE id = rid AND status = PENDING`. -/
def cancelUpdate (rs : List Reservation) (rid now : Nat) : List Reservation :=
  rs.map (fun y => if y.id = rid ∧ y.status = ReservationStatus.PENDING
    then { y with status := ReservationStatus.CANCELLED, cancelled_at := some now }
    else y)

/-- The store statement `UPDATE reservations SET status = EXPIRED
WHERE id IN ids AND status = PENDING`. -/
def expireUpdate (rs : List Reservation) (ids : List Nat) : List Reservation :=
  rs.map (fun y => if y.id ∈ ids ∧ y.status = ReservationStatus.PENDING
    then { y with status := ReservationStatus.EXPIRED }
    else y)

/-- `confirmReservation` (reservations.service), with the read phase and
the guarded-write phase given separate database states so that a
concurrent writer landing between them is expressible: the initial
`getReservation` runs against `dbRead`, the conditional update and the
PGRST116 re-read against `dbWrite`.  The sequential call is
`dbRead = dbWrite` (see `confirmReservation`). -/
def confirmReservationRacy (dbRead dbWrite : DB) (reservationId now : Nat) :
    Except AppError (Reservation × DB) :=
  match getReservation dbRead reservationId with
  | Except.error e => Except.error e
  | Except.ok reservation =>
    -- If already confirmed, return early with the reservation data
    if reservation.status = ReservationStatus.CONFIRMED then
      Except.ok (reservation, dbWrite)
    -- Cannot confirm cancelled or expired reservations
    else if reservation.status = ReservationStatus.CANCELLED then
      Except.error ⟨409, "Cannot confirm a cancelled reservation", ErrorCode.RESERVATION_CANCELLED⟩
    else if reservation.status = ReservationStatus.EXPIRED then
      Except.error ⟨409, "Cannot confirm an expired reservation", ErrorCode.RESERVATION_EXPIRED⟩
    -- Lazy expiry: reject a stale PENDING row (now > expiresAt)
    else if reservation.expires_at < now then
      Except.error ⟨409, "Cannot confirm an expired reservation", ErrorCode.RESERVATION_EXPIRED⟩
    else
      -- Conditional update: CONFIRMED only where status is still PENDING
      match dbWrite.reservations.filter
          (fun x => x.id = reservationId ∧ x.status = ReservationStatus.PENDING) with
      | [x] =>
        let x' := { x with status := ReservationStatus.CONFIRMED, confirmed_at := some now }
        Except.ok (x',
          { dbWrite with reservations := confirmUpdate dbWrite.reservations reservationId now })
      | _ =>
        -- `.single()` matched no row (PGRST116): re-read and decide
        match getReservation dbWrite reservationId with
        | Except.error e => Except.error e
        | Except.ok updated =>
          if updated.status = ReservationStatus.CONFIRMED then
            Except.ok (updated, dbWrite)
          else
            Except.error ⟨409, "Reservation state changed", ErrorCode.RESERVATION_EXPIRED⟩

/-- `confirmReservation` run without interference between its read and
its guarded write. -/
def confirmReservation (db : DB) (reservationId now : Nat) :
    Except AppError (Reservation × DB) :=
  confirmReservationRacy db db reservationId now

/-- `cancelReservation` (reservations.service), read phase against
`dbRead`, guarded write and re-read against `dbWrite` (cf.
`confirmReservationRacy`).  Note: unlike confirm, there is no lazy-expiry
check on a stale PENDING row. -/
def cancelReservationRacy (dbRead dbWrite : DB) (reservationId now : Nat) :
    Except AppError (Reservation × DB) :=
  match getReservation dbRead reservationId with
  | Except.error e => Except.error e
  | Except.ok reservation =>
    -- If already cancelled, return early with the reservation data
    if reservation.status = ReservationStatus.CANCELLED then
      Except.ok (reservation, dbWrite)
    -- Cannot cancel expired or confirmed reservations
    else if reservation.status = ReservationStatus.EXPIRED then
      Except.error ⟨409, "Cannot cancel an expired reservation", ErrorCode.RESERVATION_EXPIRED⟩
    else if reservation.status = ReservationStatus.CONFIRMED then
      Except.error ⟨409, "Cannot cancel a confirmed reservation", ErrorCode.RESERVATION_CONFIRMED⟩
    else
      -- Conditional update: CANCELLED only where status is still PENDING
      match dbWrite.reservations.filter
          (fun x => x.id = reservationId ∧ x.status = ReservationStatus.PENDING) with
      | [x] =>
        let x' := { x with status := ReservationStatus.CANCELLED, cancelled_at := some now }
        Except.ok (x',
          { dbWrite with reservations := cancelUpdate dbWrite.reservations reservationId now })
      | _ =>
        match getReservation dbWrite reservationId with
        | Except.error e => Except.error e
        | Except.ok updated =>
          if updated.status = ReservationStatus.CANCELLED
              ∨ updated.status = ReservationStatus.EXPIRED then
            Except.ok (updated, dbWrite)
          else
            Except.error ⟨409, "Reservation state changed", ErrorCode.RESERVATION_CONFIRMED⟩

/-- `cancelReservation` run without interference between its read and
its guarded write. -/
def cancelReservation (db : DB) (reservationId now : Nat) :
    Except AppError (Reservation × DB) :=
  cancelReservationRacy db db reservationId now

/-- `expireReservations` (maintenance.service), selection phase against
`dbSel`, guarded bulk update against `dbUpd`: select the ids of PENDING
reservations with `expires_at < now`, return a zero result when none,
otherwise set EXPIRED on the selected ids still PENDING at write time and
report the ids from the selection. -/
def expireReservationsRacy (dbSel dbUpd : DB) (now : Nat) :
    ExpireReservationsResult × DB :=
  let expiredReservations := dbSel.reservations.filter
    (fun r => r.status = ReservationStatus.PENDING ∧ r.expires_at < now)
  if expiredReservations.length = 0 then
    ({ expired_count := 0, expired_reservation_ids := [] }, dbUpd)
  else
    let expiredIds : List Nat := expiredReservations.map (fun reservation => reservation.id)
    let dbUpd' := { dbUpd with reservations := expireUpdate dbUpd.reservations expiredIds }
    ({ expired_count := expiredIds.length, expired_reservation_ids := expiredIds }, dbUpd')

/-- `expireReservations` run without interference between its selection
and its guarded bulk update. -/
def expireReservations (db : DB) (now : Nat) : ExpireReservationsResult × DB :=
  expireReservationsRacy db db now

/-! ## Accounting sums and the global invariant -/

/-- Sum of the quantities of the item's PENDING reservations whose
expiry is strictly in the future (live holds). -/
def pendingLiveSum (rs : List Reservation) (itemId now : Nat) : Nat :=
  ((rs.filter (fun r => r.item_id = itemId ∧ r.status = ReservationStatus.PENDING
      ∧ now < r.expires_at)).map (fun r => r.quantity)).sum

/-- Sum of the quantities of ALL the item's PENDING reservations,
regardless of expiry. -/
def pendingAllSum (rs : List Reservation) (itemId : Nat) : Nat :=
  ((rs.filter (fun r => r.item_id = itemId ∧ r.status = ReservationStatus.PENDING)).map
    (fun r => r.quantity)).sum

/-- Sum of the quantities of the item's CONFIRMED reservations. -/
def confirmedSum (rs : List Reservation) (itemId : Nat) : Nat :=
  ((rs.filter (fun r => r.item_id = itemId ∧ r.status = ReservationStatus.CONFIRMED)).map
    (fun r => r.quantity)).sum

/-- The global accounting contract: for every item,
`total_quantity ≥ Σ(live PENDING) + Σ(CONFIRMED)`. -/
def accountingInvariant (db : DB) (now : Nat) : Prop :=
  ∀ item ∈ db.items,
    pendingLiveSum db.reservations item.id now + confirmedSum db.reservations item.id
      ≤ item.total_quantity

instance (db : DB) (now : Nat) : Decidable (accountingInvariant db now) := by
  unfold accountingInvariant
  infer_instance

/-- What a single reservation row contributes to an item's
`live PENDING + CONFIRMED` ledger. -/
def contrib (itemId now : Nat) (r : Reservation) : Nat :=
  (if r.item_id = itemId ∧ r.status = ReservationStatus.PENDING ∧ now < r.expires_at
    then r.quantity else 0)
  + (if r.item_id = itemId ∧ r.status = ReservationStatus.CONFIRMED then r.quantity else 0)

/-! ## Fixture stores used by the concrete instantiations -/

/-- Fixture: a small store used to instantiate the hypothesised theorems.
One item of total quantity 3 with one live PENDING hold (expiry 100),
one stale PENDING hold (expiry 10), one CONFIRMED and one CANCELLED and
one EXPIRED reservation, observed at `now = 50`. -/
def fixItem : Item := ⟨1, "widget", 3, 0, 0⟩

def fixPendingLive : Reservation :=
  ⟨1, 1, "alice", 1, ReservationStatus.PENDING, 0, 100, none, none⟩

def fixPendingStale : Reservation :=
  ⟨2, 1, "bob", 1, ReservationStatus.PENDING, 0, 10, none, none⟩

def fixConfirmed : Reservation :=
  ⟨3, 1, "carol", 1, ReservationStatus.CONFIRMED, 0, 100, some 20, none⟩

def fixCancelled : Reservation :=
  ⟨4, 1, "dave", 1, ReservationStatus.CANCELLED, 0, 100, none, some 20⟩

def fixExpired : Reservation :=
  ⟨5, 1, "erin", 1, ReservationStatus.EXPIRED, 0, 10, none, none⟩

def fixDB : DB :=
  ⟨[fixItem], [fixPendingLive, fixPendingStale, fixConfirmed, fixCancelled, fixExpired]⟩

/-- Fixture for the lost-race confirm: the read phase saw the live
PENDING reservation, but by write time a concurrent cancel had landed. -/
def cexReadDB : DB := ⟨[fixItem], [fixPendingLive]⟩

def cexWriteRes : Reservation :=
  { fixPendingLive with status := ReservationStatus.CANCELLED, cancelled_at := some 40 }

def cexWriteDB : DB := ⟨[fixItem], [cexWriteRes]⟩

/-- Fixture for the status-report clamping question: an item with total
quantity 1, a first hold created at time 0 (expiring at 60000) and a
second hold accepted at 60001 once the first hold is past expiry. -/
def c10Item : Item := ⟨7, "gadget", 1, 0, 0⟩

def c10DB0 : DB := ⟨[c10Item], []⟩

def c10Input : CreateReservationInput := ⟨7, "alice", 1⟩

def c10Res1 : Reservation := ⟨1, 7, "alice", 1, ReservationStatus.PENDING, 0, 60000, none, none⟩

def c10DB1 : DB := ⟨[c10Item], [c10Res1]⟩

def c10Res2 : Reservation :=
  ⟨2, 7, "alice", 1, ReservationStatus.PENDING, 60001, 120001, none, none⟩

def c10DB2 : DB := ⟨[c10Item], [c10Res1, c10Res2]⟩

/-- Fixture for the confirm-at-expiry boundary: total quantity 1, one
PENDING hold expiring exactly at the observation instant 10 and one live
PENDING hold expiring at 20.  At `now = 10` the first hold is no longer
live (liveness is `now < expires_at`), so the invariant holds — yet the
lazy-expiry gate of confirm (`expires_at < now`) still lets it through. -/
def c1Item : Item := ⟨1, "w", 1, 0, 0⟩

def c1r1 : Reservation := ⟨1, 1, "a", 1, ReservationStatus.PENDING, 0, 10, none, none⟩

def c1r2 : Reservation := ⟨2, 1, "b", 1, ReservationStatus.PENDING, 0, 20, none, none⟩

def c1DB : DB := ⟨[c1Item], [c1r1, c1r2]⟩

def c1DBPost : DB :=
  ⟨[c1Item],
   [{ c1r1 with status := ReservationStatus.CONFIRMED, confirmed_at := some 10 }, c1r2]⟩

/-! ## Helper instances and lemmas -/

instance instDecEqExcept {e a : Type} [DecidableEq e] [DecidableEq a] :
    DecidableEq (Except e a) := fun x y =>
  match x, y with
  | Except.error e1, Except.error e2 =>
    if h : e1 = e2 then isTrue (by rw [h])
    else isFalse (by intro hc; cases hc; exact h rfl)
  | Except.ok v1, Except.ok v2 =>
    if h : v1 = v2 then isTrue (by rw [h])
    else isFalse (by intro hc; cases hc; exact h rfl)
  | Except.error _, Except.ok _ => isFalse (fun hc => Except.noConfusion hc)
  | Except.ok _, Except.error _ => isFalse (fun hc => Except.noConfusion hc)

lemma foldl_add_quantity (l : List Reservation) (n : Nat) :
    l.foldl (fun (sum : Nat) r => sum + r.quantity) n = n + (l.map (fun r => r.quantity)).sum := by
  induction l generalizing n with
  | nil => simp
  | cons head tail ih => simp [List.foldl_cons, ih, Nat.add_assoc]

lemma sum_map_filter_eq {α : Type} (l : List α) (p : α → Prop) [DecidablePred p] (f : α → Nat) :
    ((l.filter (fun a => p a)).map f).sum = (l.map (fun a => if p a then f a else 0)).sum := by
  induction l with
  | nil => simp
  | cons head tail ih =>
    by_cases h : p head <;> simp [List.filter_cons, h, ih]

lemma sum_map_add_distrib {α : Type} (l : List α) (f g : α → Nat) :
    (l.map (fun a => f a + g a)).sum = (l.map f).sum + (l.map g).sum := by
  induction l with
  | nil => simp
  | cons head tail ih => simp [ih]; omega

lemma sums_eq_contrib (rs : List Reservation) (itemId now : Nat) :
    pendingLiveSum rs itemId now + confirmedSum rs itemId = (rs.map (contrib itemId now)).sum := by
  unfold pendingLiveSum confirmedSum contrib
  rw [sum_map_filter_eq rs
    (fun r => r.item_id = itemId ∧ r.status = ReservationStatus.PENDING ∧ now < r.expires_at)]
  rw [sum_map_filter_eq rs (fun r => r.item_id = itemId ∧ r.status = ReservationStatus.CONFIRMED)]
  rw [sum_map_add_distrib]

lemma contrib_sum_map_le (rs : List Reservation) (f : Reservation → Reservation)
    (itemId now : Nat) (h : ∀ r ∈ rs, contrib itemId now (f r) ≤ contrib itemId now r) :
    ((rs.map f).map (contrib itemId now)).sum ≤ (rs.map (contrib itemId now)).sum := by
  rw [List.map_map]
  exact List.sum_le_sum h

lemma filter_singleton_mem {α : Type} (l : List α) (p : α → Bool) (a x : α)
    (h : l.filter p = [a]) (hx : x ∈ l) (hp : p x = true) : x = a := by
  have hmem : x ∈ l.filter p := List.mem_filter.2 ⟨hx, hp⟩
  rw [h] at hmem
  exact List.mem_singleton.1 hmem

lemma getReservation_ok_elim (db : DB) (rid : Nat) (r : Reservation)
    (h : getReservation db rid = Except.ok r) :
    db.reservations.filter (fun x => x.id = rid) = [r] := by
  unfold getReservation at h
  split at h
  · rename_i r' heq
    injection h with h2
    rw [← h2]
    exact heq
  · cases h

lemma getReservation_ok_of_filter (db : DB) (rid : Nat) (r : Reservation)
    (h : db.reservations.filter (fun x => x.id = rid) = [r]) :
    getReservation db rid = Except.ok r := by
  unfold getReservation
  rw [h]

lemma getAvailableQuantity_eq (db : DB) (itemId now : Nat) (item : Item)
    (hitem : db.items.filter (fun i => i.id = itemId) = [item]) :
    getAvailableQuantity db itemId now
      = Except.ok ((item.total_quantity : Int)
          - (pendingLiveSum db.reservations itemId now : Int)
          - (confirmedSum db.reservations itemId : Int)) := by
  unfold getAvailableQuantity
  rw [hitem]
  dsimp only
  rw [foldl_add_quantity, foldl_add_quantity]
  simp [pendingLiveSum, confirmedSum]

lemma filter_and_singleton (l : List Reservation) (rid : Nat) (r : Reservation)
    (h : l.filter (fun x => x.id = rid) = [r])
    (hp : r.status = ReservationStatus.PENDING) :
    l.filter (fun x => x.id = rid ∧ x.status = ReservationStatus.PENDING) = [r] := by
  have h2 : l.filter (fun x => x.id = rid ∧ x.status = ReservationStatus.PENDING)
      = (l.filter (fun x => x.id = rid)).filter
          (fun x => x.status = ReservationStatus.PENDING) := by
    rw [List.filter_filter]
    apply List.filter_congr
    intro x _
    rw [Bool.and_comm]
    simp
  rw [h2, h]
  simp [hp]

/-- Claim C2: for every existing item, `getItemStatus` computes
`reserved_quantity` as the sum over ALL PENDING reservations of the item
regardless of `expires_at`, while `getAvailableQuantity` (the admission
check) sums only PENDING reservations with `expires_at` strictly greater
than now; both compute `available = total - reserved - confirmed` with
`confirmed` the sum over CONFIRMED reservations. -/
theorem availability_two_computations (db : DB) (itemId now : Nat) (item : Item)
    (hitem : db.items.filter (fun i => i.id = itemId) = [item]) :
    getAvailableQuantity db itemId now
      = Except.ok ((item.total_quantity : Int)
          - (pendingLiveSum db.reservations itemId now : Int)
          - (confirmedSum db.reservations itemId : Int))
    ∧ getItemStatus db itemId
      = Except.ok
          { id := item.id
            name := item.name
            total_quantity := item.total_quantity
            available_quantity := (item.total_quantity : Int)
              - (pendingAllSum db.reservations itemId : Int)
              - (confirmedSum db.reservations itemId : Int)
            reserved_quantity := pendingAllSum db.reservations itemId
            confirmed_quantity := confirmedSum db.reservations itemId
            created_at := item.created_at
            updated_at := item.updated_at } := by
  constructor
  · exact getAvailableQuantity_eq db itemId now item hitem
  · unfold getItemStatus
    rw [hitem]
    dsimp only
    rw [foldl_add_quantity, foldl_add_quantity]
    simp [pendingAllSum, confirmedSum]

/-- Witness for `availability_two_computations` at the fixture store:
the admission check sees 3 - 1 - 1 = 1 available while the status report
sees 3 - 2 - 1 = 0. -/
theorem availability_two_computations_witness :
    getAvailableQuantity fixDB 1 50
      = Except.ok ((fixItem.total_quantity : Int)
          - (pendingLiveSum fixDB.reservations 1 50 : Int)
          - (confirmedSum fixDB.reservations 1 : Int)) :=
  (availability_two_computations fixDB 1 50 fixItem (by decide)).1

/-- Claim C5: confirm and cancel are idempotent on their own terminal
state.  For a stored reservation whose status is already CONFIRMED,
`confirmReservation` returns that reservation unchanged together with an
unchanged store (in particular the same `confirmed_at` and no increase of
the confirmed sum); for a stored reservation whose status is already
CANCELLED, `cancelReservation` likewise returns it unchanged. -/
theorem confirm_cancel_idempotent (db : DB) (rid now : Nat) (r : Reservation)
    (hfind : db.reservations.filter (fun x => x.id = rid) = [r]) :
    (r.status = ReservationStatus.CONFIRMED →
      confirmReservation db rid now = Except.ok (r, db))
    ∧ (r.status = ReservationStatus.CANCELLED →
      cancelReservation db rid now = Except.ok (r, db)) := by
  constructor
  · intro hst
    unfold confirmReservation confirmReservationRacy
    rw [getReservation_ok_of_filter db rid r hfind]
    simp [hst]
  · intro hst
    unfold cancelReservation cancelReservationRacy
    rw [getReservation_ok_of_filter db rid r hfind]
    simp [hst]

/-- Witness for `confirm_cancel_idempotent`: re-confirming the fixture's
CONFIRMED reservation returns it unchanged with `confirmed_at` still 20. -/
theorem confirm_cancel_idempotent_witness :
    confirmReservation fixDB 3 50 = Except.ok (fixConfirmed, fixDB) :=
  (confirm_cancel_idempotent fixDB 3 50 fixConfirmed (by decide)).1 (by decide)

/-- Claim C6: cross-state attempts fail with the specific typed error and
leave the store untouched (an `Except.error` result carries no store
update): confirming a CANCELLED reservation fails RESERVATION_CANCELLED,
confirming an EXPIRED one fails RESERVATION_EXPIRED, cancelling an
EXPIRED one fails RESERVATION_EXPIRED, and cancelling a CONFIRMED one
fails RESERVATION_CONFIRMED. -/
theorem cross_state_errors (db : DB) (rid now : Nat) (r : Reservation)
    (hfind : db.reservations.filter (fun x => x.id = rid) = [r]) :
    (r.status = ReservationStatus.CANCELLED →
      confirmReservation db rid now
        = Except.error ⟨409, "Cannot confirm a cancelled reservation",
            ErrorCode.RESERVATION_CANCELLED⟩)
    ∧ (r.status = ReservationStatus.EXPIRED →
      confirmReservation db rid now
        = Except.error ⟨409, "Cannot confirm an expired reservation",
            ErrorCode.RESERVATION_EXPIRED⟩)
    ∧ (r.status = ReservationStatus.EXPIRED →
      cancelReservation db rid now
        = Except.error ⟨409, "Cannot cancel an expired reservation",
            ErrorCode.RESERVATION_EXPIRED⟩)
    ∧ (r.status = ReservationStatus.CONFIRMED →
      cancelReservation db rid now
        = Except.error ⟨409, "Cannot cancel a confirmed reservation",
            ErrorCode.RESERVATION_CONFIRMED⟩) := by
  refine ⟨fun hst => ?_, fun hst => ?_, fun hst => ?_, fun hst => ?_⟩
  · unfold confirmReservation confirmReservationRacy
    rw [getReservation_ok_of_filter db rid r hfind]
    simp [hst]
  · unfold confirmReservation confirmReservationRacy
    rw [getReservation_ok_of_filter db rid r hfind]
    simp [hst]
  · unfold cancelReservation cancelReservationRacy
    rw [getReservation_ok_of_filter db rid r hfind]
    simp [hst]
  · unfold cancelReservation cancelReservationRacy
    rw [getReservation_ok_of_filter db rid r hfind]
    simp [hst]

/-- Witness for `cross_state_errors`: cancelling the fixture's CONFIRMED
reservation fails with the RESERVATION_CONFIRMED conflict. -/
theorem cross_state_errors_witness :
    cancelReservation fixDB 3 50
      = Except.error ⟨409, "Cannot cancel a confirmed reservation",
          ErrorCode.RESERVATION_CONFIRMED⟩ :=
  (cross_state_errors fixDB 3 50 fixConfirmed (by decide)).2.2.2 (by decide)

/-- Counterexample to claim C3 as stated: the fixture's stale PENDING
reservation (id 2, expiry 10) is NOT rejected by `cancelReservation` at
`now = 50` with a RESERVATION_EXPIRED error; the cancel succeeds and
marks the row CANCELLED.  Only `confirmReservation` implements the
lazy-expiry rejection. -/
theorem stale_pending_cancel_succeeds_cex :
    fixPendingStale.status = ReservationStatus.PENDING
    ∧ fixPendingStale.expires_at < 50
    ∧ cancelReservation fixDB 2 50
        = Except.ok
            ({ fixPendingStale with
                status := ReservationStatus.CANCELLED
                cancelled_at := some 50 },
              { fixDB with reservations :=
                [fixPendingLive,
                 { fixPendingStale with
                    status := ReservationStatus.CANCELLED
                    cancelled_at := some 50 },
                 fixConfirmed, fixCancelled, fixExpired] }) :=
  ⟨by decide, by decide, by rfl⟩

/-- Claim C3 amended: for a stored PENDING reservation whose `expires_at`
is strictly in the past, `confirmReservation` fails with the
RESERVATION_EXPIRED error and leaves the store unchanged, but
`cancelReservation` does NOT perform this lazy-expiry check: it succeeds
and transitions the stale row to CANCELLED. -/
theorem stale_pending_lazy_expiry (db : DB) (rid now : Nat) (r : Reservation)
    (hfind : db.reservations.filter (fun x => x.id = rid) = [r])
    (hp : r.status = ReservationStatus.PENDING)
    (hstale : r.expires_at < now) :
    confirmReservation db rid now
      = Except.error ⟨409, "Cannot confirm an expired reservation",
          ErrorCode.RESERVATION_EXPIRED⟩
    ∧ cancelReservation db rid now
      = Except.ok ({ r with
            status := ReservationStatus.CANCELLED
            cancelled_at := some now },
          { db with reservations := cancelUpdate db.reservations rid now }) := by
  constructor
  · unfold confirmReservation confirmReservationRacy
    rw [getReservation_ok_of_filter db rid r hfind]
    simp [hp, hstale]
  · unfold cancelReservation cancelReservationRacy
    rw [getReservation_ok_of_filter db rid r hfind]
    simp only [hp]
    rw [filter_and_singleton db.reservations rid r hfind hp]
    simp [hp]

/-- Witness for `stale_pending_lazy_expiry` at the fixture's stale
PENDING reservation, `now = 50`. -/
theorem stale_pending_lazy_expiry_witness :
    confirmReservation fixDB 2 50
      = Except.error ⟨409, "Cannot confirm an expired reservation",
          ErrorCode.RESERVATION_EXPIRED⟩ :=
  (stale_pending_lazy_expiry fixDB 2 50 fixPendingStale (by decide) (by decide)
    (by decide)).1

/-- Counterexample to claim C4 as stated: when the guarded update of
`confirmReservation` matches zero rows and the re-read shows a
non-CONFIRMED status, the operation fails with the pre-existing
RESERVATION_EXPIRED error code (message "Reservation state changed") —
the `ErrorCode` enum has no dedicated ReservationStateChanged member, so
the failure is not surfaced under a state-changed error kind. -/
theorem confirm_guard_miss_code_cex :
    confirmReservationRacy cexReadDB cexWriteDB 1 50
      = Except.error ⟨409, "Reservation state changed", ErrorCode.RESERVATION_EXPIRED⟩ := by
  rfl

/-- Claim C4 amended: when the guarded conditional update of
`confirmReservation` matches zero rows, the operation re-reads the
reservation and returns it as a success if its status is then CONFIRMED;
for any other status it fails with a 409 conflict whose message is
"Reservation state changed", carried under the RESERVATION_EXPIRED error
code (the `ErrorCode` enum has no ReservationStateChanged member). -/
theorem confirm_guard_miss (dbRead dbWrite : DB) (rid now : Nat) (r u : Reservation)
    (hfindR : dbRead.reservations.filter (fun x => x.id = rid) = [r])
    (hp : r.status = ReservationStatus.PENDING)
    (hlive : ¬ r.expires_at < now)
    (hzero : dbWrite.reservations.filter
        (fun x => x.id = rid ∧ x.status = ReservationStatus.PENDING) = [])
    (hfindW : dbWrite.reservations.filter (fun x => x.id = rid) = [u]) :
    (u.status = ReservationStatus.CONFIRMED →
      confirmReservationRacy dbRead dbWrite rid now = Except.ok (u, dbWrite))
    ∧ (u.status ≠ ReservationStatus.CONFIRMED →
      confirmReservationRacy dbRead dbWrite rid now
        = Except.error ⟨409, "Reservation state changed", ErrorCode.RESERVATION_EXPIRED⟩) := by
  constructor
  · intro hu
    unfold confirmReservationRacy
    rw [getReservation_ok_of_filter dbRead rid r hfindR]
    simp only [hp, hlive]
    rw [hzero]
    simp only []
    rw [getReservation_ok_of_filter dbWrite rid u hfindW]
    simp [hu]
  · intro hu
    unfold confirmReservationRacy
    rw [getReservation_ok_of_filter dbRead rid r hfindR]
    simp only [hp, hlive]
    rw [hzero]
    simp only []
    rw [getReservation_ok_of_filter dbWrite rid u hfindW]
    simp [hu]

/-- Witness for `confirm_guard_miss` at the lost-race fixture: the
re-read sees CANCELLED, so the call fails with the conflict error. -/
theorem confirm_guard_miss_witness :
    confirmReservationRacy cexReadDB cexWriteDB 1 50
      = Except.error ⟨409, "Reservation state changed", ErrorCode.RESERVATION_EXPIRED⟩ :=
  (confirm_guard_miss cexReadDB cexWriteDB 1 50 fixPendingLive cexWriteRes
    (by decide) (by decide) (by decide) (by decide) (by decide)).2 (by decide)

/-- Claim C7: `expireReservations` returns a zero count and an empty id
list when no reservation is PENDING with `expires_at` strictly before
now; otherwise it returns exactly the count and ids selected in its
initial query — against ANY write-time store state, so also ids whose row
is no longer PENDING there — and the bulk update flips a row to EXPIRED
only where it is still PENDING (rows in any other status pass through
unchanged). -/
theorem expire_result_shape (dbSel dbUpd : DB) (now : Nat) :
    (dbSel.reservations.filter
        (fun r => r.status = ReservationStatus.PENDING ∧ r.expires_at < now) = [] →
      expireReservationsRacy dbSel dbUpd now
        = ({ expired_count := 0, expired_reservation_ids := [] }, dbUpd))
    ∧ (∀ sel, dbSel.reservations.filter
          (fun r => r.status = ReservationStatus.PENDING ∧ r.expires_at < now) = sel →
        sel ≠ [] →
        expireReservationsRacy dbSel dbUpd now
          = ({ expired_count := sel.length,
               expired_reservation_ids := sel.map (fun r => r.id) },
             { dbUpd with reservations :=
                expireUpdate dbUpd.reservations (sel.map (fun r => r.id)) }))
    ∧ (∀ y ∈ dbUpd.reservations, y.status ≠ ReservationStatus.PENDING →
        y ∈ (expireReservationsRacy dbSel dbUpd now).2.reservations) := by
  refine ⟨fun hempty => ?_, fun sel hsel hne => ?_, fun y hy hys => ?_⟩
  · unfold expireReservationsRacy
    rw [hempty]
    simp
  · unfold expireReservationsRacy
    rw [hsel]
    have hlen : sel.length ≠ 0 := by
      intro h0
      exact hne (List.length_eq_zero.1 h0)
    simp [hlen, List.length_map]
  · unfold expireReservationsRacy
    dsimp only
    split
    · exact hy
    · dsimp only
      unfold expireUpdate
      have : (if y.id ∈ (dbSel.reservations.filter
          (fun r => r.status = ReservationStatus.PENDING ∧ r.expires_at < now)).map
            (fun reservation => reservation.id) ∧ y.status = ReservationStatus.PENDING
          then { y with status := ReservationStatus.EXPIRED } else y) = y := by
        rw [if_neg]
        intro hcon
        exact hys hcon.2
      rw [← this]
      exact List.mem_map_of_mem _ hy

/-- Witness for `expire_result_shape`: sweeping the fixture store at
`now = 50` selects exactly the stale PENDING reservation (id 2). -/
theorem expire_result_shape_witness :
    expireReservationsRacy fixDB fixDB 50
      = ({ expired_count := 1, expired_reservation_ids := [2] },
         { fixDB with reservations := expireUpdate fixDB.reservations [2] }) :=
  (expire_result_shape fixDB fixDB 50).2.1 [fixPendingStale] (by decide) (by decide)

/-- Claim C8: `createReservation` fails ITEM_NOT_FOUND when the item does
not exist; otherwise, when the admission-check availability is strictly
below the requested quantity it fails INSUFFICIENT_QUANTITY with a
message carrying both amounts and inserts nothing (an error leaves the
store untouched); otherwise it inserts exactly one new PENDING
reservation with the given quantity and expiry `now` plus the global
reservation window, and returns it. -/
theorem create_reservation_behaviour (db : DB) (input : CreateReservationInput)
    (now newId : Nat) :
    (itemExists db input.item_id = false →
      createReservation db input now newId
        = Except.error ⟨404, "Item not found", ErrorCode.ITEM_NOT_FOUND⟩)
    ∧ (∀ avail, itemExists db input.item_id = true →
        getAvailableQuantity db input.item_id now = Except.ok avail →
        avail < (input.quantity : Int) →
        createReservation db input now newId
          = Except.error ⟨409,
              "Insufficient available quantity. Available: " ++ toString avail
                ++ ", Requested: " ++ toString input.quantity,
              ErrorCode.INSUFFICIENT_QUANTITY⟩)
    ∧ (∀ avail, itemExists db input.item_id = true →
        getAvailableQuantity db input.item_id now = Except.ok avail →
        (input.quantity : Int) ≤ avail →
        createReservation db input now newId
          = Except.ok
              ({ id := newId
                 item_id := input.item_id
                 customer_id := input.customer_id
                 quantity := input.quantity
                 status := ReservationStatus.PENDING
                 created_at := now
                 expires_at := now + RESERVATION_EXPIRY_MINUTES * 60000
                 confirmed_at := none
                 cancelled_at := none },
               { db with reservations := db.reservations ++
                  [{ id := newId
                     item_id := input.item_id
                     customer_id := input.customer_id
                     quantity := input.quantity
                     status := ReservationStatus.PENDING
                     created_at := now
                     expires_at := now + RESERVATION_EXPIRY_MINUTES * 60000
                     confirmed_at := none
                     cancelled_at := none }] })) := by
  refine ⟨fun hmiss => ?_, fun avail hex havail hlt => ?_, fun avail hex havail hge => ?_⟩
  · unfold createReservation
    simp [hmiss]
  · unfold createReservation
    rw [hex]
    simp only [Bool.true_eq_false, if_false]
    rw [havail]
    simp [hlt]
  · unfold createReservation
    rw [hex]
    simp only [Bool.true_eq_false, if_false]
    rw [havail]
    simp [not_lt.2 hge]

/-- Witness for `create_reservation_behaviour`: requesting 1 unit of the
fixture item at `now = 50` (1 available by the admission check) succeeds
and appends a PENDING reservation expiring at 50 + 60000. -/
theorem create_reservation_behaviour_witness :
    createReservation fixDB ⟨1, "frank", 1⟩ 50 6
      = Except.ok
          ({ id := 6
             item_id := 1
             customer_id := "frank"
             quantity := 1
             status := ReservationStatus.PENDING
             created_at := 50
             expires_at := 50 + RESERVATION_EXPIRY_MINUTES * 60000
             confirmed_at := none
             cancelled_at := none },
           { fixDB with reservations := fixDB.reservations ++
              [{ id := 6
                 item_id := 1
                 customer_id := "frank"
                 quantity := 1
                 status := ReservationStatus.PENDING
                 created_at := 50
                 expires_at := 50 + RESERVATION_EXPIRY_MINUTES * 60000
                 confirmed_at := none
                 cancelled_at := none }] }) :=
  (create_reservation_behaviour fixDB ⟨1, "frank", 1⟩ 50 6).2.2 1
    (by decide) (by decide) (by decide)

/-- Claim C9: the fixed global reservation window is exactly 1 minute
(`RESERVATION_EXPIRY_MINUTES = 1`): every successful `createReservation`
stores `expires_at = now + 1 * 60000` ms — one minute past the
creation-time clock reading, not the 10 minutes stated in the README. -/
theorem reservation_window_one_minute :
    RESERVATION_EXPIRY_MINUTES = 1
    ∧ ∀ (db : DB) (input : CreateReservationInput) (now newId : Nat)
        (r : Reservation) (db' : DB),
        createReservation db input now newId = Except.ok (r, db') →
        r.expires_at = now + 1 * 60000 := by
  constructor
  · rfl
  · intro db input now newId r db' hok
    unfold createReservation at hok
    split at hok
    · cases hok
    · split at hok
      · cases hok
      · split at hok
        · cases hok
        · injection hok with hpair
          have hexp := congrArg (fun p => p.1.expires_at) hpair
          simpa [RESERVATION_EXPIRY_MINUTES] using hexp.symm

/-- Witness for `reservation_window_one_minute`: the reservation created
at `now = 50` in the fixture store expires at 50 + 60000. -/
theorem reservation_window_one_minute_witness :
    ((createReservation fixDB ⟨1, "frank", 1⟩ 50 6).map
      (fun p => p.1.expires_at)) = Except.ok (50 + 1 * 60000) := by
  have hok : createReservation fixDB ⟨1, "frank", 1⟩ 50 6
      = Except.ok
          (⟨6, 1, "frank", 1, ReservationStatus.PENDING, 50, 60050, none, none⟩,
           ⟨[fixItem], [fixPendingLive, fixPendingStale, fixConfirmed, fixCancelled,
              fixExpired,
              ⟨6, 1, "frank", 1, ReservationStatus.PENDING, 50, 60050, none, none⟩]⟩) := by
    rfl
  rw [hok]
  exact congrArg Except.ok (reservation_window_one_minute.2 _ _ _ _ _ _ hok)

/-- Claim C10: `getItemStatus` never clamps at zero.  A state reached by
two successful `createReservation` calls — the second accepted after the
first hold's expiry elapsed — reports a strictly negative
`available_quantity` (-1), because the status report subtracts ALL
PENDING holds including the already-expired one. -/
theorem status_report_negative_available :
    createReservation c10DB0 c10Input 0 1 = Except.ok (c10Res1, c10DB1)
    ∧ createReservation c10DB1 c10Input 60001 2 = Except.ok (c10Res2, c10DB2)
    ∧ (getItemStatus c10DB2 7).map (fun st => st.available_quantity) = Except.ok (-1)
    ∧ (-1 : Int) < 0 :=
  ⟨by decide, by decide, by decide, by decide⟩

lemma pendingLiveSum_append (rs : List Reservation) (x : Reservation) (itemId now : Nat) :
    pendingLiveSum (rs ++ [x]) itemId now
      = pendingLiveSum rs itemId now
        + (if x.item_id = itemId ∧ x.status = ReservationStatus.PENDING ∧ now < x.expires_at
            then x.quantity else 0) := by
  unfold pendingLiveSum
  rw [List.filter_append, List.map_append, List.sum_append]
  congr 1
  by_cases h : x.item_id = itemId ∧ x.status = ReservationStatus.PENDING ∧ now < x.expires_at
    <;> simp [List.filter, h]

lemma confirmedSum_append (rs : List Reservation) (x : Reservation) (itemId : Nat) :
    confirmedSum (rs ++ [x]) itemId
      = confirmedSum rs itemId
        + (if x.item_id = itemId ∧ x.status = ReservationStatus.CONFIRMED
            then x.quantity else 0) := by
  unfold confirmedSum
  rw [List.filter_append, List.map_append, List.sum_append]
  congr 1
  by_cases h : x.item_id = itemId ∧ x.status = ReservationStatus.CONFIRMED
    <;> simp [List.filter, h]

lemma itemExists_true_elim (db : DB) (itemId : Nat) (h : itemExists db itemId = true) :
    ∃ item, db.items.filter (fun i => i.id = itemId) = [item] := by
  unfold itemExists at h
  split at h
  · rename_i item heq
    exact ⟨item, heq⟩
  · cases h

lemma createReservation_preserves_invariant (db : DB) (input : CreateReservationInput)
    (now newId : Nat) (r : Reservation) (db' : DB)
    (hok : createReservation db input now newId = Except.ok (r, db'))
    (hinv : accountingInvariant db now) : accountingInvariant db' now := by
  unfold createReservation at hok
  split at hok
  · cases hok
  · rename_i hex
    split at hok
    · cases hok
    · rename_i avail havail
      split at hok
      · cases hok
      · rename_i hlt
        injection hok with hpair
        have hdb := congrArg Prod.snd hpair
        dsimp only at hdb
        rw [← hdb]
        have hex' : itemExists db input.item_id = true := by
          cases h : itemExists db input.item_id
          · exact absurd h hex
          · rfl
        obtain ⟨item0, hitem0⟩ := itemExists_true_elim db input.item_id hex'
        rw [getAvailableQuantity_eq db input.item_id now item0 hitem0] at havail
        injection havail with havailEq
        intro item hitem
        dsimp only at hitem ⊢
        by_cases hid : item.id = input.item_id
        · have hsame : item = item0 :=
            filter_singleton_mem db.items (fun i => decide (i.id = input.item_id)) item0 item
              hitem0 hitem (by simp [hid])
          rw [pendingLiveSum_append, confirmedSum_append, hid]
          dsimp only
          rw [if_pos ⟨rfl, rfl, by unfold RESERVATION_EXPIRY_MINUTES; omega⟩]
          rw [if_neg (fun hcon => by cases hcon.2)]
          have hq : (input.quantity : Int) ≤ avail := not_lt.1 hlt
          rw [← havailEq] at hq
          rw [hsame]
          omega
        · rw [pendingLiveSum_append, confirmedSum_append]
          dsimp only
          rw [if_neg (fun hcon => hid hcon.1.symm)]
          rw [if_neg (fun hcon => hid hcon.1.symm)]
          simpa using hinv item hitem

lemma contrib_sum_map_eq (rs : List Reservation) (f : Reservation → Reservation)
    (itemId now : Nat) (h : ∀ r ∈ rs, contrib itemId now (f r) = contrib itemId now r) :
    ((rs.map f).map (contrib itemId now)).sum = (rs.map (contrib itemId now)).sum := by
  rw [List.map_map]
  exact congrArg List.sum (List.map_congr_left h)

lemma cancelUpdate_sums_le (rs : List Reservation) (rid now itemId : Nat) :
    pendingLiveSum (cancelUpdate rs rid now) itemId now
        + confirmedSum (cancelUpdate rs rid now) itemId
      ≤ pendingLiveSum rs itemId now + confirmedSum rs itemId := by
  rw [sums_eq_contrib, sums_eq_contrib, cancelUpdate]
  apply contrib_sum_map_le
  intro y _
  by_cases h : y.id = rid ∧ y.status = ReservationStatus.PENDING
  · rw [if_pos h]
    unfold contrib
    dsimp only
    rw [if_neg (fun hcon => by cases hcon.2.1)]
    rw [if_neg (fun hcon => by cases hcon.2)]
    exact Nat.zero_le _
  · rw [if_neg h]

lemma expireUpdate_sums_le (rs : List Reservation) (ids : List Nat) (itemId now : Nat) :
    pendingLiveSum (expireUpdate rs ids) itemId now
        + confirmedSum (expireUpdate rs ids) itemId
      ≤ pendingLiveSum rs itemId now + confirmedSum rs itemId := by
  rw [sums_eq_contrib, sums_eq_contrib, expireUpdate]
  apply contrib_sum_map_le
  intro y _
  by_cases h : y.id ∈ ids ∧ y.status = ReservationStatus.PENDING
  · rw [if_pos h]
    unfold contrib
    dsimp only
    rw [if_neg (fun hcon => by cases hcon.2.1)]
    rw [if_neg (fun hcon => by cases hcon.2)]
    exact Nat.zero_le _
  · rw [if_neg h]

lemma confirmUpdate_sums_eq (rs : List Reservation) (rid now itemId : Nat) (r : Reservation)
    (hfind : rs.filter (fun x => x.id = rid) = [r])
    (hlive : now < r.expires_at) :
    pendingLiveSum (confirmUpdate rs rid now) itemId now
        + confirmedSum (confirmUpdate rs rid now) itemId
      = pendingLiveSum rs itemId now + confirmedSum rs itemId := by
  rw [sums_eq_contrib, sums_eq_contrib, confirmUpdate]
  apply contrib_sum_map_eq
  intro y hy
  by_cases h : y.id = rid ∧ y.status = ReservationStatus.PENDING
  · have hyr : y = r :=
      filter_singleton_mem rs (fun x => decide (x.id = rid)) r y hfind hy (by simp [h.1])
    rw [if_pos h]
    subst hyr
    by_cases hit : y.item_id = itemId
    · simp [contrib, h.2, hlive, hit]
    · simp [contrib, hit]
  · rw [if_neg h]

lemma confirmReservation_preserves_invariant (db : DB) (rid now : Nat)
    (res : Reservation) (db' : DB)
    (hok : confirmReservation db rid now = Except.ok (res, db'))
    (hneq : now ≠ res.expires_at)
    (hinv : accountingInvariant db now) : accountingInvariant db' now := by
  unfold confirmReservation confirmReservationRacy at hok
  split at hok
  · cases hok
  · rename_i r hget
    split at hok
    · rename_i hconf
      injection hok with hpair
      have hdb := congrArg Prod.snd hpair
      dsimp only at hdb
      rw [← hdb]
      exact hinv
    · rename_i hnconf
      split at hok
      · cases hok
      · rename_i hncanc
        split at hok
        · cases hok
        · rename_i hnexp
          split at hok
          · cases hok
          · rename_i hnstale
            split at hok
            · rename_i x hfilt
              injection hok with hpair
              have hres := congrArg Prod.fst hpair
              have hdb := congrArg Prod.snd hpair
              dsimp only at hres hdb
              rw [← hdb]
              have hfr := getReservation_ok_elim db rid r hget
              have hxmem : x ∈ db.reservations.filter
                  (fun q => q.id = rid ∧ q.status = ReservationStatus.PENDING) := by
                rw [hfilt]
                exact List.mem_singleton_self x
              have hxmem' := List.mem_filter.1 hxmem
              have hxid : x.id = rid ∧ x.status = ReservationStatus.PENDING := by
                have := hxmem'.2
                simpa using this
              have hxr : x = r :=
                filter_singleton_mem db.reservations (fun q => decide (q.id = rid)) r x
                  hfr hxmem'.1 (by simp [hxid.1])
              have hexp : res.expires_at = r.expires_at := by
                rw [← hres, hxr]
              have hlive : now < r.expires_at := by
                have hle : now ≤ r.expires_at := not_lt.1 hnstale
                have hne' : now ≠ r.expires_at := by
                  rw [hexp] at hneq
                  exact hneq
                exact lt_of_le_of_ne hle hne'
              intro item hitem
              dsimp only at hitem ⊢
              rw [confirmUpdate_sums_eq db.reservations rid now item.id r hfr hlive]
              exact hinv item hitem
            · dsimp only at hok
              rw [if_neg hnconf] at hok
              cases hok

lemma cancelReservation_preserves_invariant (db : DB) (rid now : Nat)
    (res : Reservation) (db' : DB)
    (hok : cancelReservation db rid now = Except.ok (res, db'))
    (hinv : accountingInvariant db now) : accountingInvariant db' now := by
  unfold cancelReservation cancelReservationRacy at hok
  split at hok
  · cases hok
  · rename_i r hget
    split at hok
    · rename_i hcanc
      injection hok with hpair
      have hdb := congrArg Prod.snd hpair
      dsimp only at hdb
      rw [← hdb]
      exact hinv
    · rename_i hncanc
      split at hok
      · cases hok
      · rename_i hnexp
        split at hok
        · cases hok
        · rename_i hnconf
          split at hok
          · rename_i x hfilt
            injection hok with hpair
            have hdb := congrArg Prod.snd hpair
            dsimp only at hdb
            rw [← hdb]
            intro item hitem
            dsimp only at hitem ⊢
            exact le_trans (cancelUpdate_sums_le db.reservations rid now item.id)
              (hinv item hitem)
          · dsimp only at hok
            rw [if_neg (fun hcon => hcon.elim hncanc hnexp)] at hok
            cases hok

lemma expireReservations_preserves_invariant (db : DB) (now : Nat)
    (result : ExpireReservationsResult) (db' : DB)
    (hok : expireReservations db now = (result, db'))
    (hinv : accountingInvariant db now) : accountingInvariant db' now := by
  unfold expireReservations expireReservationsRacy at hok
  dsimp only at hok
  split at hok
  · injection hok with h1 h2
    rw [← h2]
    exact hinv
  · injection hok with h1 h2
    rw [← h2]
    intro item hitem
    dsimp only at hitem ⊢
    exact le_trans (expireUpdate_sums_le db.reservations _ item.id now) (hinv item hitem)

/-- Counterexample to claim C1 as stated: the store `c1DB` satisfies the
accounting invariant at `now = 10`, `confirmReservation` of the hold
whose `expires_at` equals 10 succeeds (the lazy-expiry check only
rejects `expires_at < now`), and the resulting store violates the
invariant: the confirmed quantity joins the ledger while the hold had
already left the live PENDING sum. -/
theorem invariant_confirm_boundary_cex :
    accountingInvariant c1DB 10
    ∧ confirmReservation c1DB 1 10
        = Except.ok
            ({ c1r1 with status := ReservationStatus.CONFIRMED, confirmed_at := some 10 },
             c1DBPost)
    ∧ ¬ accountingInvariant c1DBPost 10 :=
  ⟨by decide, by decide, by decide⟩

/-- Claim C1 amended: starting from any store satisfying the accounting
invariant `total_quantity ≥ Σ(quantity of live PENDING) + Σ(quantity of
CONFIRMED)` for every item, the invariant again holds after a completed
`createReservation`, `cancelReservation` or `expireReservations`, and
after a completed `confirmReservation` provided `now` is not exactly the
confirmed reservation's `expires_at` (at that boundary instant the
invariant can break, see the counterexample). -/
theorem invariant_preserved (db : DB) (now : Nat) (hinv : accountingInvariant db now) :
    (∀ input newId r db', createReservation db input now newId = Except.ok (r, db') →
        accountingInvariant db' now)
    ∧ (∀ rid r db', confirmReservation db rid now = Except.ok (r, db') →
        now ≠ r.expires_at → accountingInvariant db' now)
    ∧ (∀ rid r db', cancelReservation db rid now = Except.ok (r, db') →
        accountingInvariant db' now)
    ∧ (∀ result db', expireReservations db now = (result, db') →
        accountingInvariant db' now) :=
  ⟨fun input newId r db' hok =>
      createReservation_preserves_invariant db input now newId r db' hok hinv,
   fun rid r db' hok hneq =>
      confirmReservation_preserves_invariant db rid now r db' hok hneq hinv,
   fun rid r db' hok =>
      cancelReservation_preserves_invariant db rid now r db' hok hinv,
   fun result db' hok =>
      expireReservations_preserves_invariant db now result db' hok hinv⟩

/-- Witness for `invariant_preserved`: cancelling the live hold of the
fixture store at `now = 50` keeps the accounting invariant. -/
theorem invariant_preserved_witness :
    accountingInvariant
      ⟨[fixItem],
       [{ fixPendingLive with status := ReservationStatus.CANCELLED, cancelled_at := some 50 },
        fixPendingStale, fixConfirmed, fixCancelled, fixExpired]⟩ 50 :=
  (invariant_preserved fixDB 50 (by decide)).2.2.1 1
    ({ fixPendingLive with status := ReservationStatus.CANCELLED, cancelled_at := some 50 })
    ⟨[fixItem],
     [{ fixPendingLive with status := ReservationStatus.CANCELLED, cancelled_at := some 50 },
      fixPendingStale, fixConfirmed, fixCancelled, fixExpired]⟩
    (by decide)
